import Mathlib

/-!
Verification development for the pusher websocket client (`src/client.go`).

The client's core is a single serialized control loop (`runLoop`) that owns
all mutable state: the transport handle, the `Connected` flag, the channel
registry, the reconnect timer, and the listener bindings.  The loop waits on
a fixed set of input sources and processes exactly one ready input at a
time.  The embedding below models that loop as a step function on an
explicit state record, with two observation logs recording the wire frames
handed to the transport and the deliveries made to listeners.

`src/` contains only `client.go`; the files declaring `Channel`,
`connection`/`dial`, `createAuthString`, and `Member` are not present, so
those pieces are modelled from the spec and flagged as such in their doc
comments.  External collaborators (the JSON codec and the HMAC primitive)
are taken as parameters, exactly as the spec scopes them out.
-/

namespace PusherClient

/-- Modelled from the spec (`Member` is declared in a file not present in
`src/`): a presence-channel member is a pair of a user id and user info;
both are kept as plain strings since their encoded form is the external
codec's concern. -/
structure Member where
  userId : String
  userInfo : String
  deriving DecidableEq, Repr

/-- Modelled from the spec (`connection` and `dial` are declared in a file
not present in `src/`): the transport is an external collaborator exposing
send and close.  The only connection field `client.go` reads or writes is
`socketID` (assigned when the connection-established event is processed),
so the handle is modelled as exactly that field; a successful `dial`
returns a handle whose `socketID` still holds the zero value. -/
structure Conn where
  socketID : String
  deriving DecidableEq, Repr

/-- A channel registry entry (`Channel` is declared in a file not present in
`src/`; modelled from the spec plus the fields `client.go` uses: `Name`,
`Subscribed`, and the connection handle stored on subscription success).
`cid` models Go pointer identity: `Subscribe` hands out pointers, and two
registry entries alias the same underlying channel entity exactly when they
carry the same `cid`. -/
structure Channel where
  cid : Nat
  name : String
  subscribed : Bool
  conn : Option Conn := none
  deriving DecidableEq, Repr

/-- Modelled from the spec (`Channel.isPrivate` is declared in a file not
present in `src/`): a channel is private when its name starts with the
characters of `private-`. -/
def Channel.isPrivate (ch : Channel) : Bool :=
  List.isPrefixOf "private-".data ch.name.data

/-- Modelled from the spec (`Channel.isPresence` is declared in a file not
present in `src/`): a channel is presence-kind when its name starts with
the characters of `presence-`. -/
def Channel.isPresence (ch : Channel) : Bool :=
  List.isPrefixOf "presence-".data ch.name.data

/-- The client configuration carried by `ClientConfig` in `client.go`.  The
authorization callback returns a signature string or an error. -/
structure ClientConfig where
  Scheme : String
  Host : String
  Port : String
  Key : String
  Secret : String
  AuthFunc : String → String → Except String String

/-- The external collaborators the subscribe path calls into, scoped out by
the spec: the canonical JSON serialization of the caller identity, and the
HMAC-SHA256 hex digest primitive.  Modelled as parameters so every theorem
holds for every implementation of these leaves. -/
structure Env where
  marshalMember : Member → String
  hmacHex : String → String → String

/-- A decoded inbound frame, as produced by `decode` in `client.go`:
`{event, channel, data}` with `data` still an encoded blob. -/
structure Event where
  name : String
  channel : String
  data : String
  deriving DecidableEq, Repr

/-- An outbound wire frame as built by `encode`: the event name plus the
subscribe/unsubscribe `data` payload fields.  `client.go` always calls
`encode` with a nil top-level channel, so no such field is modelled, and
the byte-level JSON rendering is the external codec's concern. -/
structure OutMsg where
  event : String
  channel : String
  auth : Option String := none
  channelData : Option String := none
  deriving DecidableEq, Repr

/-- The payload handed to a listener: a raw data string, a presence member
roster, or a single member. -/
inductive EvPayload where
  | raw (s : String)
  | members (ms : List Member)
  | member (m : Member)
  deriving DecidableEq, Repr

/-- One synchronous hand-off performed by `triggerEventCallback`: either a
send into the per-(channel, event) binding, or an invocation of one
registered global listener. -/
inductive Delivery where
  | binding (channel event : String) (payload : EvPayload)
  | global (channel event : String) (payload : EvPayload)
  deriving DecidableEq, Repr

/-- The mutable state owned by the control loop: the fields of `Client`
(`Connected`, `Channels`, `UserData`, the bindings maps, the embedded
connection handle) together with the reconnect timer, plus two observation
logs recording the wire frames handed to the transport and the listener
deliveries performed.  `bindings` keeps the set of registered
(channel, event) keys and `globalCount` the number of registered global
listeners (they are keyed by callback address, so every registration is a
distinct entry).  `timer = some d` means the connect timer is set to fire
after `d` seconds and `none` that it is stopped or already fired.
`nextId` allocates `Channel.cid` pointer identities. -/
structure ClientState where
  connection : Option Conn
  connected : Bool
  channels : List Channel
  userData : Member
  bindings : List (String × String)
  globalCount : Nat
  nextId : Nat
  timer : Option Nat
  sentWire : List OutMsg
  delivered : List Delivery
  deriving DecidableEq, Repr

/-- Results of the second, per-event decode pass over `Event.data` (the
JSON codec is external): the socket id extracted for
connection-established (the empty string when the key is absent or the
data undecodable, matching a Go map lookup after an ignored Unmarshal
error), and the member data for the presence events (zero values on a
failed decode, since those errors are ignored too). -/
structure InnerDecode where
  sockId : String := ""
  members : List Member := []
  member : Member := { userId := "", userInfo := "" }
  deriving DecidableEq, Repr

/-- One ready input of the control loop's select: the connect timer firing
(together with the external dial's outcome), a Subscribe or Unsubscribe
request queued by the caller, a raw inbound frame (carried together with
its decode results, the codec being external; a failed outer decode leaves
the zero-valued event), an explicit disconnect request, and the
transport-closed notification. -/
inductive Input where
  | timerFired (dialOk : Bool)
  | subscribeReq (name : String)
  | unsubscribeReq (name : String)
  | rawMessage (dec : Except Unit Event) (inner : InnerDecode)
  | disconnectReq
  | closed
  deriving Repr

/-- The outcome of processing one input: the loop keeps running, the loop
executed `return` (only the disconnect case does), or the process aborted
on a nil dereference or an authorization callback failure. -/
inductive RunResult where
  | running (st : ClientState)
  | exited (st : ClientState)
  | panicked
  deriving DecidableEq, Repr

/-- Modelled from the spec (`createAuthString` is declared in a file not
present in `src/`): compute an HMAC-SHA256 keyed by the application secret
over the signing string and format the auth field as the application key,
a colon, and the hex digest; the HMAC primitive itself is the external
`Env.hmacHex`. -/
def createAuthString (env : Env) (key secret stringToSign : String) : String :=
  key ++ ":" ++ env.hmacHex secret stringToSign

/-- The scan `Client.Subscribe` performs over `Channels`: return the first
entry carrying the requested name, or a fresh channel (new pointer
identity, not yet subscribed) when none exists. -/
def subscribeScan (channels : List Channel) (nextId : Nat) (name : String) : Channel :=
  match channels.find? (fun ch => ch.name == name) with
  | some ch => ch
  | none => { cid := nextId, name := name, subscribed := false }

/-- The handle `Subscribe(channel)` returns to the caller: the scanned (or
freshly created) channel.  The same value is what travels down the
`_subscribe` request queue for the control loop to process; in the
serialized model the loop's `Input.subscribeReq` case re-runs the scan and
obtains this same channel. -/
def Subscribe (st : ClientState) (name : String) : Channel :=
  subscribeScan st.channels st.nextId name

/-- The body of `Client.subscribe`: build the payload (the channel name,
plus an auth field from the caller-supplied callback for private channels,
plus channel_data and a locally signed auth field for presence channels),
encode it under the event `pusher:subscribe`, and send it.  Reading
`socketID` off a nil connection, an error returned by the authorization
callback, and `send` on a nil connection all abort the whole process,
modelled as `Except.error ()`. -/
def subscribeWire (env : Env) (cfg : ClientConfig) (conn : Option Conn)
    (userData : Member) (ch : Channel) : Except Unit OutMsg :=
  match conn with
  | none => .error ()
  | some c =>
    let base : OutMsg := { event := "pusher:subscribe", channel := ch.name }
    let withAuth : Except Unit OutMsg :=
      if ch.isPrivate then
        match cfg.AuthFunc c.socketID ch.name with
        | .error _ => .error ()
        | .ok a => .ok { base with auth := some a }
      else .ok base
    match withAuth with
    | .error e => .error e
    | .ok m =>
      if ch.isPresence then
        let userDataStr := env.marshalMember userData
        let stringToSign := c.socketID ++ ":" ++ ch.name ++ ":" ++ userDataStr
        .ok { m with channelData := some userDataStr,
                     auth := some (createAuthString env cfg.Key cfg.Secret stringToSign) }
      else .ok m

/-- The wire frame built by `Client.unsubscribe`. -/
def unsubMsg (name : String) : OutMsg :=
  { event := "pusher:unsubscribe", channel := name }

/-- The deliveries `triggerEventCallback` performs: a send into the
per-(channel, event) binding when one is registered, then one invocation
per registered global listener. -/
def triggerLog (st : ClientState) (channel event : String) (p : EvPayload) :
    List Delivery :=
  (if st.bindings.contains (channel, event) then [.binding channel event p] else [])
    ++ List.replicate st.globalCount (.global channel event p)

/-- The resubscription pass of the connection-established case: walk the
registry in order and invoke `Client.subscribe` for every entry whose
`Subscribed` flag is false, collecting the frames sent; a process abort in
any `subscribe` aborts the whole pass. -/
def pendingSubscribes (env : Env) (cfg : ClientConfig) (c : Conn)
    (userData : Member) : List Channel → Except Unit (List OutMsg)
  | [] => .ok []
  | ch :: rest =>
    if ch.subscribed then pendingSubscribes env cfg c userData rest
    else
      match subscribeWire env cfg (some c) userData ch with
      | .error e => .error e
      | .ok m =>
        match pendingSubscribes env cfg c userData rest with
        | .error e => .error e
        | .ok ms => .ok (m :: ms)

/-- The unsubscribe-request case of the loop: walk the registry; for every
entry carrying the requested name, and only when a connection handle
exists, send the wire unsubscribe frame and clear that entry's
`Subscribed` flag.  Without a handle the entry is left untouched (the
request is a silent no-op). -/
def unsubFold (connPresent : Bool) (name : String) :
    List Channel → List Channel × List OutMsg
  | [] => ([], [])
  | ch :: rest =>
    let r := unsubFold connPresent name rest
    if ch.name == name && connPresent then
      ({ ch with subscribed := false } :: r.1, unsubMsg name :: r.2)
    else (ch :: r.1, r.2)

/-- The subscription-succeeded case of the loop: walk the registry; every
entry carrying the event's channel name is marked subscribed and given the
current connection handle, and for each such entry of presence kind one
synthetic subscription-succeeded event carrying the decoded roster is
delivered.  The second component counts those deliveries. -/
def succeededFold (stConn : Option Conn) (name : String) :
    List Channel → List Channel × Nat
  | [] => ([], 0)
  | ch :: rest =>
    let r := succeededFold stConn name rest
    if ch.name == name then
      ({ ch with subscribed := true, conn := stConn } :: r.1,
        (if ch.isPresence then r.2 + 1 else r.2))
    else (ch :: r.1, r.2)

/-- The disconnect-request case of the loop: mark every channel
unsubscribed, close the transport (`self.connection.ws.Close()` is a nil
dereference — a process abort — when no connection handle exists), drop
the handle, stop the connect timer, acknowledge on the connection's
`onDisconnect` callback channel, and return from the loop.  Note the
acknowledgment goes to the connection's callbacks, not to the caller of
`Disconnect()`, and that the `Connected` flag is left untouched. -/
def disconnectTeardown (st : ClientState) : RunResult :=
  let cleared := st.channels.map (fun ch => { ch with subscribed := false })
  match st.connection with
  | none => .panicked
  | some _ =>
    .exited { st with channels := cleared, connection := none, timer := none }

/-- The zero-valued event, left behind by `decode` when `json.Unmarshal`
fails on a malformed frame (the error is discarded by `event, _ :=`). -/
def zeroEvent : Event := { name := "", channel := "", data := "" }

/-- One iteration of `runLoop`: process exactly one ready input, mirroring
the select cases of `client.go` line by line. -/
def runStep (env : Env) (cfg : ClientConfig) (st : ClientState) (i : Input) :
    RunResult :=
  match i with
  | .timerFired dialOk =>
    match st.timer with
    | none => .running st
    | some _ =>
      if dialOk then
        .running { st with connection := some { socketID := "" }, timer := none }
      else
        .running { st with timer := some 1 }
  | .subscribeReq name =>
    let ch := subscribeScan st.channels st.nextId name
    let afterSend : Except Unit ClientState :=
      if st.connected then
        match subscribeWire env cfg st.connection st.userData ch with
        | .error e => .error e
        | .ok m => .ok { st with sentWire := st.sentWire ++ [m] }
      else .ok st
    match afterSend with
    | .error _ => .panicked
    | .ok st1 =>
      .running { st1 with channels := st1.channels ++ [ch], nextId := st1.nextId + 1 }
  | .unsubscribeReq name =>
    let r := unsubFold st.connection.isSome name st.channels
    .running { st with channels := r.1, sentWire := st.sentWire ++ r.2 }
  | .rawMessage dec inner =>
    let event : Event :=
      match dec with
      | .ok e => e
      | .error _ => zeroEvent
    if event.name == "pusher:connection_established" then
      match st.connection with
      | none => .panicked
      | some _ =>
        let c1 : Conn := { socketID := inner.sockId }
        match pendingSubscribes env cfg c1 st.userData st.channels with
        | .error _ => .panicked
        | .ok ms =>
          .running { st with connection := some c1, connected := true,
                             sentWire := st.sentWire ++ ms }
    else if event.name == "pusher_internal:subscription_succeeded" then
      let r := succeededFold st.connection event.channel st.channels
      .running { st with channels := r.1,
                         delivered := st.delivered ++
                           (List.replicate r.2 (triggerLog st event.channel
                             "pusher:subscription_succeeded"
                             (.members inner.members))).flatten }
    else if event.name == "pusher_internal:member_added" then
      let d := triggerLog st event.channel "pusher:member_added" (.member inner.member)
      .running { st with delivered := st.delivered ++ d }
    else if event.name == "pusher_internal:member_removed" then
      let d := triggerLog st event.channel "pusher:member_removed" (.member inner.member)
      .running { st with delivered := st.delivered ++ d }
    else
      let d := triggerLog st event.channel event.name (.raw event.data)
      .running { st with delivered := st.delivered ++ d }
  | .disconnectReq => disconnectTeardown st
  | .closed =>
    .running { st with
      channels := st.channels.map (fun ch => { ch with subscribed := false }),
      connection := none, timer := some 1 }

/-- Run the control loop over a list of ready inputs, one at a time; once
the loop has returned or the process has aborted, later inputs are never
serviced. -/
def runTraceFrom (env : Env) (cfg : ClientConfig) : RunResult → List Input → RunResult
  | r, [] => r
  | .running st, i :: rest => runTraceFrom env cfg (runStep env cfg st i) rest
  | r, _ :: _ => r

/-- The state `NewWithConfig` constructs: empty registry and bindings, no
connection, the `Connected` flag at its zero value, and the connect timer
set to fire immediately. -/
def initState : ClientState :=
  { connection := none, connected := false, channels := [],
    userData := { userId := "", userInfo := "" }, bindings := [],
    globalCount := 0, nextId := 0, timer := some 0,
    sentWire := [], delivered := [] }

/-- Run the control loop from a fresh client over a list of ready inputs. -/
def runTrace (env : Env) (cfg : ClientConfig) (inputs : List Input) : RunResult :=
  runTraceFrom env cfg (.running initState) inputs

/-- `BindGlobal` adds one entry to the global-listener set (entries are
keyed by callback address, so every registration adds a distinct entry). -/
def BindGlobal (st : ClientState) : ClientState :=
  { st with globalCount := st.globalCount + 1 }

/-- Modelled from the spec: the conceptual ConnectionState.  The code keeps
no such enum, so the mapping is by observation: the loop has returned or
the process has died — disconnected; a transport handle is present and the
connection-established flag is set — connected; otherwise the loop is
dialing, awaiting connection-established, or waiting on the reconnect
timer — connecting. -/
inductive ConnState where
  | disconnected
  | connecting
  | connected
  deriving DecidableEq, Repr

/-- The conceptual connection state observed on a loop outcome. -/
def connState : RunResult → ConnState
  | .running st => if st.connected && st.connection.isSome then .connected else .connecting
  | .exited _ => .disconnected
  | .panicked => .disconnected

/-- Does this input carry a successfully decoded connection-established
control event? -/
def isEstablishedMsg : Input → Bool
  | .rawMessage (.ok e) _ => e.name == "pusher:connection_established"
  | _ => false

/-- The two threads involved in a `Disconnect()` call: the caller blocked
on the unbuffered `_disconnect` send, and the control loop.  A Go send on
an unbuffered channel unblocks the sender at the rendezvous — the instant
the loop's select commits the receive — while the body of the selected
case runs afterwards, and the `onDisconnect` acknowledgment at the end of
the teardown goes to the connection's callbacks, not to the caller.  The
model therefore has three atomic events: the rendezvous, the caller's
return from `Disconnect()`, and the loop's teardown. -/
structure DiscWorld where
  client : ClientState
  rendezvousDone : Bool
  callerReturned : Bool
  loopOutcome : Option RunResult
  deriving DecidableEq, Repr

/-- A scheduling event during a `Disconnect()` call. -/
inductive DiscAct where
  | rendezvous
  | callerReturn
  | loopTeardown
  deriving DecidableEq, Repr

/-- One scheduling step of a `Disconnect()` call: the caller's return and
the loop's teardown may each happen any time after the rendezvous, in
either order; each event happens once. -/
def discStep (w : DiscWorld) : DiscAct → Option DiscWorld
  | .rendezvous =>
    if w.rendezvousDone then none
    else some { w with rendezvousDone := true }
  | .callerReturn =>
    if w.rendezvousDone && !w.callerReturned then
      some { w with callerReturned := true }
    else none
  | .loopTeardown =>
    if w.rendezvousDone && w.loopOutcome.isNone then
      some { w with loopOutcome := some (disconnectTeardown w.client) }
    else none

/-- Run a schedule of a `Disconnect()` call. -/
def discRun (w : DiscWorld) : List DiscAct → Option DiscWorld
  | [] => some w
  | a :: rest =>
    match discStep w a with
    | none => none
    | some w1 => discRun w1 rest

/-- The world at the instant `Disconnect()` is called. -/
def discStart (st : ClientState) : DiscWorld :=
  { client := st, rendezvousDone := false, callerReturned := false,
    loopOutcome := none }

/-- A concrete instantiation of the external collaborators, used to
evaluate the model on concrete inputs. -/
def env0 : Env :=
  { marshalMember := fun m => "u:" ++ m.userId,
    hmacHex := fun _ s => "H" ++ s }

/-- A concrete client configuration whose authorization callback succeeds,
returning a signature exhibiting both of its arguments. -/
def cfg0 : ClientConfig :=
  { Scheme := "wss", Host := "h", Port := "443", Key := "k", Secret := "sec",
    AuthFunc := fun s c => .ok (s ++ "|" ++ c) }

/-- A configuration whose authorization callback always fails. -/
def cfgErr : ClientConfig :=
  { cfg0 with AuthFunc := fun _ _ => .error "denied" }

/-- A client that dialed successfully but has not yet processed
connection-established: a transport handle exists, `Connected` is false,
and one channel ("a") sits unsubscribed in the registry. -/
def stAwait : ClientState :=
  { initState with
    connection := some { socketID := "" },
    channels := [{ cid := 0, name := "a", subscribed := false }],
    nextId := 1, timer := none }

/-- `stAwait` after its unsubscribe request was processed. -/
def stAwaitAfter : ClientState :=
  { stAwait with sentWire := [unsubMsg "a"] }

/-- A fully connected client with one subscribed channel ("a"). -/
def stSub : ClientState :=
  { initState with
    connection := some { socketID := "s" }, connected := true,
    channels := [{ cid := 0, name := "a", subscribed := true }],
    nextId := 1, timer := none }

/-- `stSub` after the transport-closed notification was processed: the
handle is gone and the timer is set, but `Connected` still reads true. -/
def stSubClosed : ClientState :=
  { stSub with
    channels := [{ cid := 0, name := "a", subscribed := false }],
    connection := none, timer := some 1 }

/-- The registry after two `Subscribe("a")` calls on a fresh client: two
entries, both carrying pointer identity 0. -/
def stDup : ClientState :=
  { initState with
    channels := [{ cid := 0, name := "a", subscribed := false },
                 { cid := 0, name := "a", subscribed := false }],
    nextId := 2 }

/-- A client whose registry holds one channel ("a"). -/
def stOne : ClientState :=
  { initState with
    channels := [{ cid := 0, name := "a", subscribed := false }],
    nextId := 1 }

/-- A fully connected client with an empty registry and socket id "S". -/
def stPriv : ClientState :=
  { initState with
    connection := some { socketID := "S" }, connected := true,
    timer := none }

/-- A client awaiting connection-established with one already-subscribed
channel and one pending channel. -/
def stPend : ClientState :=
  { initState with
    connection := some { socketID := "" },
    channels := [{ cid := 0, name := "done", subscribed := true },
                 { cid := 1, name := "a", subscribed := false }],
    nextId := 2, timer := none }

end PusherClient

namespace PusherClient

/-- No channel name carries both kind tags: a presence-prefixed name is
not private-prefixed (the two tags differ at their third character). -/
theorem presence_not_private (ch : Channel) (h : ch.isPresence = true) :
    ch.isPrivate = false := by
  have h1 : List.isPrefixOf "presence-".data ch.name.data = true := h
  obtain ⟨t, ht⟩ := List.isPrefixOf_iff_prefix.mp h1
  unfold Channel.isPrivate
  rw [← ht]
  rfl

/-- No channel name carries both kind tags: a private-prefixed name is not
presence-prefixed. -/
theorem private_not_presence (ch : Channel) (h : ch.isPrivate = true) :
    ch.isPresence = false := by
  have h1 : List.isPrefixOf "private-".data ch.name.data = true := h
  obtain ⟨t, ht⟩ := List.isPrefixOf_iff_prefix.mp h1
  unfold Channel.isPresence
  rw [← ht]
  rfl

/-- A successful `subscribe` requires a transport handle. -/
theorem subscribeWire_ok_isSome {env : Env} {cfg : ClientConfig}
    {conn : Option Conn} {ud : Member} {ch : Channel} {m : OutMsg}
    (h : subscribeWire env cfg conn ud ch = .ok m) : conn.isSome = true := by
  cases conn with
  | none => simp [subscribeWire] at h
  | some c => rfl

/-- Every frame `subscribe` sends carries the subscribe event name and the
channel's name. -/
theorem subscribeWire_ok_fields {env : Env} {cfg : ClientConfig}
    {conn : Option Conn} {ud : Member} {ch : Channel} {m : OutMsg}
    (h : subscribeWire env cfg conn ud ch = .ok m) :
    m.event = "pusher:subscribe" ∧ m.channel = ch.name := by
  cases conn with
  | none => simp [subscribeWire] at h
  | some c =>
    cases hp : ch.isPrivate with
    | false =>
      cases hq : ch.isPresence with
      | false => simp [subscribeWire, hp, hq] at h; rw [← h]; exact ⟨rfl, rfl⟩
      | true => simp [subscribeWire, hp, hq] at h; rw [← h]; exact ⟨rfl, rfl⟩
    | true =>
      cases ha : cfg.AuthFunc c.socketID ch.name with
      | error e => simp [subscribeWire, hp, ha] at h
      | ok a =>
        cases hq : ch.isPresence with
        | false => simp [subscribeWire, hp, hq, ha] at h; rw [← h]; exact ⟨rfl, rfl⟩
        | true => simp [subscribeWire, hp, hq, ha] at h; rw [← h]; exact ⟨rfl, rfl⟩

/-- Without a transport handle the unsubscribe-request walk neither
touches the registry nor sends anything. -/
theorem unsubFold_nilConn (name : String) (l : List Channel) :
    unsubFold false name l = (l, []) := by
  induction l with
  | nil => rfl
  | cons ch rest ih => simp [unsubFold, ih]

/-- Every frame the unsubscribe-request walk sends is the wire unsubscribe
frame for the requested name. -/
theorem unsubFold_sent (cp : Bool) (name : String) (l : List Channel) :
    ∀ m ∈ (unsubFold cp name l).2, m = unsubMsg name := by
  induction l with
  | nil => simp [unsubFold]
  | cons ch rest ih =>
    intro m hm
    by_cases hc : (ch.name == name && cp) = true
    · simp only [unsubFold, hc, if_true] at hm
      rcases List.mem_cons.mp hm with h1 | h1
      · exact h1
      · exact ih m h1
    · simp only [unsubFold, hc, if_false] at hm
      exact ih m hm

/-- The resubscription pass sends one subscribe frame per registry entry
whose `Subscribed` flag is false, in registry order, for exactly those
entries. -/
theorem pendingSubscribes_spec {env : Env} {cfg : ClientConfig} {c : Conn}
    {ud : Member} :
    ∀ (l : List Channel) (ms : List OutMsg),
      pendingSubscribes env cfg c ud l = .ok ms →
      ms.map (fun m => m.channel) =
        (l.filter (fun ch => !ch.subscribed)).map (fun ch => ch.name) ∧
      ∀ m ∈ ms, m.event = "pusher:subscribe" := by
  intro l
  induction l with
  | nil =>
    intro ms h
    simp [pendingSubscribes] at h
    subst h
    exact ⟨rfl, by simp⟩
  | cons ch rest ih =>
    intro ms h
    cases hs : ch.subscribed with
    | true =>
      rw [pendingSubscribes, hs] at h
      simp only [if_true] at h
      obtain ⟨h1, h2⟩ := ih ms h
      refine ⟨?_, h2⟩
      simpa [hs] using h1
    | false =>
      rw [pendingSubscribes, hs] at h
      simp only [Bool.false_eq_true, if_false] at h
      cases hw : subscribeWire env cfg (some c) ud ch with
      | error e => rw [hw] at h; simp at h
      | ok m0 =>
        rw [hw] at h
        cases hr : pendingSubscribes env cfg c ud rest with
        | error e => rw [hr] at h; simp at h
        | ok ms0 =>
          rw [hr] at h
          simp only [Except.ok.injEq] at h
          obtain ⟨h1, h2⟩ := ih ms0 hr
          obtain ⟨he, hc2⟩ := subscribeWire_ok_fields hw
          rw [← h]
          constructor
          · simp [hs, h1, hc2]
          · intro m hm
            rcases List.mem_cons.mp hm with h3 | h3
            · rw [h3]; exact he
            · exact h2 m h3

/-- The channel `Subscribe`'s scan returns always carries the requested
name. -/
theorem subscribeScan_name (channels : List Channel) (nid : Nat) (name : String) :
    (subscribeScan channels nid name).name = name := by
  unfold subscribeScan
  cases hf : channels.find? (fun ch => ch.name == name) with
  | none => simp
  | some ch =>
    have hb0 := List.find?_some hf
    have hb : (ch.name == name) = true := hb0
    show ch.name = name
    exact eq_of_beq hb

end PusherClient

namespace PusherClient

/-- C2 (counterexample): "Disconnect() returns only after the control loop
has fully torn down and exited; at the moment Disconnect() returns, every
channel in the registry reports unsubscribed" is false.  `Disconnect()` is
only a send on the unbuffered `_disconnect` channel, so the caller is
unblocked at the rendezvous, before the loop's case body runs; the
schedule below is a valid execution in which the caller has returned
(`callerReturned = true`) while the teardown has not run
(`loopOutcome = none`) and the registry still holds a subscribed
channel. -/
theorem C2_counterexample :
    discRun (discStart stSub) [.rendezvous, .callerReturn] =
      some { client := stSub, rendezvousDone := true, callerReturned := true,
             loopOutcome := none } ∧
    stSub.channels = [{ cid := 0, name := "a", subscribed := true }] :=
  ⟨rfl, rfl⟩

/-- C2 (amended): `Disconnect()` blocks only until the control loop accepts
the request; once the loop does process it (and a transport handle exists,
see C6), the teardown runs to completion: the loop exits, every channel in
the registry reports unsubscribed, and no subsequently issued Subscribe,
Unsubscribe, or Disconnect request is ever serviced. -/
theorem C2_accept_then_teardown (env : Env) (cfg : ClientConfig)
    (st : ClientState) (c : Conn) (h : st.connection = some c) :
    ∃ st1, disconnectTeardown st = .exited st1 ∧
      (∀ ch ∈ st1.channels, ch.subscribed = false) ∧
      (∀ inputs, runTraceFrom env cfg (.exited st1) inputs = .exited st1) ∧
      discRun (discStart st) [.rendezvous, .callerReturn, .loopTeardown] =
        some { client := st, rendezvousDone := true, callerReturned := true,
               loopOutcome := some (.exited st1) } := by
  refine ⟨{ st with
      channels := st.channels.map (fun ch => { ch with subscribed := false }),
      connection := none, timer := none }, ?_, ?_, ?_, ?_⟩
  · unfold disconnectTeardown
    rw [h]
  · intro ch hch
    rcases List.mem_map.mp hch with ⟨a, _, rfl⟩
    rfl
  · intro inputs
    cases inputs <;> rfl
  · simp [discRun, discStep, discStart, disconnectTeardown, h]

/-- C2 witness: the amended teardown statement evaluated on the concrete
connected client `stSub`. -/
theorem C2_witness :
    ∃ st1, disconnectTeardown stSub = .exited st1 ∧
      (∀ ch ∈ st1.channels, ch.subscribed = false) ∧
      (∀ inputs, runTraceFrom env0 cfg0 (.exited st1) inputs = .exited st1) ∧
      discRun (discStart stSub) [.rendezvous, .callerReturn, .loopTeardown] =
        some { client := stSub, rendezvousDone := true, callerReturned := true,
               loopOutcome := some (.exited st1) } :=
  C2_accept_then_teardown env0 cfg0 stSub { socketID := "s" } rfl

/-- C3 (counterexample): "a second call to Subscribe(n) ... does not add a
second entry for n to the registry" is false.  Two `Subscribe("a")` calls
on a fresh client leave two registry entries named "a" (the control loop's
subscribe case appends unconditionally); both entries carry the same
pointer identity, so they alias one underlying channel entity. -/
theorem C3_counterexample :
    runTrace env0 cfg0 [.subscribeReq "a", .subscribeReq "a"] = .running stDup ∧
    stDup.channels.countP (fun ch => ch.name == "a") = 2 ∧
    stDup.channels.map (fun ch => ch.cid) = [0, 0] :=
  ⟨rfl, rfl, rfl⟩

/-- C3 (amended): for every channel name n already present in the
registry, a further Subscribe(n) returns the same underlying channel
entity as before (the first registry entry with that name), but the
control loop appends one more registry entry for n — an alias of that same
entity — so registry entries are not unique by name, only entities are. -/
theorem C3_same_entity_duplicate_entry (env : Env) (cfg : ClientConfig)
    (st : ClientState) (name : String) (ch0 : Channel)
    (hfound : st.channels.find? (fun ch => ch.name == name) = some ch0) :
    Subscribe st name = ch0 ∧
    (st.connected = false →
      runStep env cfg st (.subscribeReq name) =
        .running { st with
                   channels := st.channels ++ [ch0],
                   nextId := st.nextId + 1 }) ∧
    (∀ m, st.connected = true →
      subscribeWire env cfg st.connection st.userData ch0 = .ok m →
      runStep env cfg st (.subscribeReq name) =
        .running { st with
                   channels := st.channels ++ [ch0],
                   nextId := st.nextId + 1,
                   sentWire := st.sentWire ++ [m] }) := by
  have hscan : subscribeScan st.channels st.nextId name = ch0 := by
    unfold subscribeScan
    rw [hfound]
  refine ⟨hscan, ?_, ?_⟩
  · intro hc
    simp [runStep, hscan, hc]
  · intro m hc hw
    simp [runStep, hscan, hc, hw]

/-- C3 witness: the amended statement evaluated on a client whose registry
already holds channel "a". -/
theorem C3_witness :
    Subscribe stOne "a" = { cid := 0, name := "a", subscribed := false } ∧
    (stOne.connected = false →
      runStep env0 cfg0 stOne (.subscribeReq "a") =
        .running { stOne with
                   channels := stOne.channels ++
                     [{ cid := 0, name := "a", subscribed := false }],
                   nextId := stOne.nextId + 1 }) ∧
    (∀ m, stOne.connected = true →
      subscribeWire env0 cfg0 stOne.connection stOne.userData
        { cid := 0, name := "a", subscribed := false } = .ok m →
      runStep env0 cfg0 stOne (.subscribeReq "a") =
        .running { stOne with
                   channels := stOne.channels ++
                     [{ cid := 0, name := "a", subscribed := false }],
                   nextId := stOne.nextId + 1,
                   sentWire := stOne.sentWire ++ [m] }) :=
  C3_same_entity_duplicate_entry env0 cfg0 stOne "a"
    { cid := 0, name := "a", subscribed := false } rfl

/-- C4: processing a connection-established control event records the
carried socket id on the connection handle, sets the fully-connected flag,
and sends one wire subscribe frame for exactly those registry entries
whose subscribed flag is false, in registry order (provided a transport
handle exists — it is dereferenced — and no authorization callback in the
pass fails, which would abort the process). -/
theorem C4_established_resubscribes (env : Env) (cfg : ClientConfig)
    (st : ClientState) (e : Event) (inner : InnerDecode) (c : Conn)
    (ms : List OutMsg)
    (hname : e.name = "pusher:connection_established")
    (hconn : st.connection = some c)
    (hok : pendingSubscribes env cfg { socketID := inner.sockId } st.userData
             st.channels = .ok ms) :
    runStep env cfg st (.rawMessage (.ok e) inner) =
      .running { st with
                 connection := some { socketID := inner.sockId },
                 connected := true, sentWire := st.sentWire ++ ms } ∧
    ms.map (fun m => m.channel) =
      (st.channels.filter (fun ch => !ch.subscribed)).map (fun ch => ch.name) ∧
    (∀ m ∈ ms, m.event = "pusher:subscribe") := by
  obtain ⟨h1, h2⟩ := pendingSubscribes_spec st.channels ms hok
  refine ⟨?_, h1, h2⟩
  simp [runStep, hname, hconn, hok]

/-- C4 witness: the established event evaluated on `stPend`, whose
registry holds one already-subscribed channel ("done") and one pending
channel ("a"): exactly one subscribe frame, for "a", is sent, and the
socket id "sid" is recorded. -/
theorem C4_witness :
    runStep env0 cfg0 stPend
        (.rawMessage (.ok { name := "pusher:connection_established",
                            channel := "", data := "x" })
          { sockId := "sid" }) =
      .running { stPend with
                 connection := some { socketID := "sid" },
                 connected := true,
                 sentWire := stPend.sentWire ++
                   [{ event := "pusher:subscribe", channel := "a" }] } ∧
    ([{ event := "pusher:subscribe", channel := "a" }] : List OutMsg).map
        (fun m => m.channel) =
      (stPend.channels.filter (fun ch => !ch.subscribed)).map (fun ch => ch.name) ∧
    (∀ m ∈ ([{ event := "pusher:subscribe", channel := "a" }] : List OutMsg),
      m.event = "pusher:subscribe") :=
  C4_established_resubscribes env0 cfg0 stPend
    { name := "pusher:connection_established", channel := "", data := "x" }
    { sockId := "sid" } { socketID := "" }
    [{ event := "pusher:subscribe", channel := "a" }] rfl rfl rfl

/-- C5: processing the transport-closed notification clears every
channel's subscribed flag, moves the conceptual connection state from
connected to connecting (the transport handle is dropped; a handle and the
established flag together are what "connected" means), and sets the
reconnect timer to the fixed one-second delay. -/
theorem C5_closed_transition (env : Env) (cfg : ClientConfig)
    (st : ClientState) (_hstart : connState (.running st) = .connected) :
    ∃ st', runStep env cfg st .closed = .running st' ∧
      (∀ ch ∈ st'.channels, ch.subscribed = false) ∧
      connState (.running st') = .connecting ∧
      st'.timer = some 1 := by
  refine ⟨_, rfl, ?_, ?_, rfl⟩
  · intro ch hch
    rcases List.mem_map.mp hch with ⟨a, _, rfl⟩
    rfl
  · simp [connState]

/-- C5 witness: the closed notification evaluated on the concrete
connected client `stSub`. -/
theorem C5_witness :
    ∃ st', runStep env0 cfg0 stSub .closed = .running st' ∧
      (∀ ch ∈ st'.channels, ch.subscribed = false) ∧
      connState (.running st') = .connecting ∧
      st'.timer = some 1 :=
  C5_closed_transition env0 cfg0 stSub rfl

/-- C6 (code bug): the claim — and the spec — say a disconnect request
always completes, closing the transport only "if one exists"; but the
disconnect case of `runLoop` runs `self.connection.ws.Close()`
unconditionally, so processing a disconnect while no transport handle
exists (a fresh client still dialing, i.e. conceptually connecting)
dereferences nil and aborts the process instead of completing. -/
theorem C6_disconnect_nil_close :
    connState (.running initState) = .connecting ∧
    initState.connection = none ∧
    runStep env0 cfg0 initState .disconnectReq = .panicked :=
  ⟨rfl, rfl, rfl⟩

/-- C7: for every socket id S, presence-prefixed channel name C and
serialized caller identity D (the identity serialization and the HMAC hex
digest being the external collaborators `Env.marshalMember` and
`Env.hmacHex`), the subscribe payload carries channel_data = D and
auth = Key ++ ":" ++ hex(HMAC-SHA256(Secret, S ++ ":" ++ C ++ ":" ++ D)). -/
theorem C7_presence_signing (env : Env) (cfg : ClientConfig) (c : Conn)
    (ud : Member) (ch : Channel) (hpres : ch.isPresence = true) :
    subscribeWire env cfg (some c) ud ch =
      .ok { event := "pusher:subscribe", channel := ch.name,
            auth := some (cfg.Key ++ ":" ++
              env.hmacHex cfg.Secret
                (c.socketID ++ ":" ++ ch.name ++ ":" ++ env.marshalMember ud)),
            channelData := some (env.marshalMember ud) } := by
  have hp : ch.isPrivate = false := presence_not_private ch hpres
  simp [subscribeWire, hp, hpres, createAuthString]

/-- C7 witness: the presence payload evaluated at socket id "S", channel
"presence-room", and the concrete serialization of member 42. -/
theorem C7_witness :
    subscribeWire env0 cfg0 (some { socketID := "S" })
        { userId := "42", userInfo := "i" }
        { cid := 0, name := "presence-room", subscribed := false } =
      .ok { event := "pusher:subscribe", channel := "presence-room",
            auth := some (cfg0.Key ++ ":" ++
              env0.hmacHex cfg0.Secret
                ("S" ++ ":" ++ "presence-room" ++ ":" ++
                  env0.marshalMember { userId := "42", userInfo := "i" })),
            channelData := some
              (env0.marshalMember { userId := "42", userInfo := "i" }) } :=
  C7_presence_signing env0 cfg0 { socketID := "S" }
    { userId := "42", userInfo := "i" }
    { cid := 0, name := "presence-room", subscribed := false } rfl

/-- C9 (counterexample): "a frame that fails to decode is silently
dropped ... delivers no event to any per-binding or global listener" is
false.  The decode error is discarded (`event, _ := decode(...)`), the
zero-valued event falls into the default dispatch branch, and a
registered global listener receives the event ("", "", ""). -/
theorem C9_counterexample :
    (BindGlobal initState).delivered = [] ∧
    runStep env0 cfg0 (BindGlobal initState) (.rawMessage (.error ()) {}) =
      .running { BindGlobal initState with
                 delivered := [.global "" "" (.raw "")] } :=
  ⟨rfl, rfl⟩

/-- C9 (amended): a frame that fails to decode changes no connection or
channel state, but it is not dropped: the loop processes the zero-valued
event and invokes the dispatcher with empty channel, event name, and
data — every registered global listener (and a per-binding listener
registered under the empty channel and event names) receives it. -/
theorem C9_decode_failure_dispatch (env : Env) (cfg : ClientConfig)
    (st : ClientState) (u : Unit) (inner : InnerDecode) :
    runStep env cfg st (.rawMessage (.error u) inner) =
      .running { st with
                 delivered := st.delivered ++ triggerLog st "" "" (.raw "") } :=
  rfl

/-- C10: the transport-closed case never resets the `Connected` flag (it
only clears subscriptions, drops the handle, and rearms the timer); as a
consequence, a subscribe request processed after such a close, while the
handle is still nil and before a new dial has succeeded, runs the wire
subscribe immediately against the nil connection handle and aborts the
process instead of deferring. -/
theorem C10_stale_connected_faults (env : Env) (cfg : ClientConfig)
    (st st' : ClientState) (name : String)
    (h : runStep env cfg st .closed = .running st') :
    st'.connected = st.connected ∧ st'.connection = none ∧
    (st.connected = true →
      runStep env cfg st' (.subscribeReq name) = .panicked) := by
  have hst : { st with
      channels := st.channels.map (fun ch => { ch with subscribed := false }),
      connection := none, timer := some 1 } = st' := by
    have h2 := h
    simp only [runStep, RunResult.running.injEq] at h2
    exact h2
  subst hst
  refine ⟨rfl, rfl, ?_⟩
  intro hc
  simp [runStep, subscribeWire, hc]

/-- C10 witness: the closed notification followed by a subscribe request
evaluated on the concrete connected client `stSub`: `Connected` still
reads true afterwards and the subscribe request aborts. -/
theorem C10_witness :
    stSubClosed.connected = stSub.connected ∧ stSubClosed.connection = none ∧
    (stSub.connected = true →
      runStep env0 cfg0 stSubClosed (.subscribeReq "b") = .panicked) :=
  C10_stale_connected_faults env0 cfg0 stSub stSubClosed "b" rfl

end PusherClient

namespace PusherClient

/-- C8: whenever `subscribe` runs for a private-prefixed channel while
connected, the caller-supplied authorization callback is consulted at
exactly (socketID, channelName): an ok result is embedded verbatim as the
payload's auth field, and an error aborts the whole process (the subscribe
request does not fail gracefully — the loop dies). -/
theorem C8_private_callback (env : Env) (cfg : ClientConfig)
    (st : ClientState) (c : Conn) (name : String)
    (hconn : st.connection = some c) (hflag : st.connected = true)
    (hpriv : List.isPrefixOf "private-".data name.data = true) :
    (∀ a, cfg.AuthFunc c.socketID name = .ok a →
      runStep env cfg st (.subscribeReq name) =
        .running { st with
                   channels := st.channels ++
                     [subscribeScan st.channels st.nextId name],
                   nextId := st.nextId + 1,
                   sentWire := st.sentWire ++
                     [{ event := "pusher:subscribe", channel := name,
                        auth := some a }] }) ∧
    (∀ e, cfg.AuthFunc c.socketID name = .error e →
      runStep env cfg st (.subscribeReq name) = .panicked) := by
  have hname : (subscribeScan st.channels st.nextId name).name = name :=
    subscribeScan_name st.channels st.nextId name
  have hpriv2 : (subscribeScan st.channels st.nextId name).isPrivate = true := by
    unfold Channel.isPrivate
    rw [hname]
    exact hpriv
  have hpres2 : (subscribeScan st.channels st.nextId name).isPresence = false :=
    private_not_presence _ hpriv2
  constructor
  · intro a ha
    simp [runStep, subscribeWire, hconn, hflag, hpriv2, hpres2, ha, hname]
  · intro e he
    simp [runStep, subscribeWire, hconn, hflag, hpriv2, hpres2, hname, he]

/-- C8 witness: the private-channel subscribe evaluated on the connected
client `stPriv` (socket id "S"), once under the succeeding callback of
`cfg0` — whose signature "S|private-x" lands verbatim in the payload — and
once under the failing callback of `cfgErr`, which aborts the process. -/
theorem C8_witness :
    runStep env0 cfg0 stPriv (.subscribeReq "private-x") =
      .running { stPriv with
                 channels := stPriv.channels ++
                   [subscribeScan stPriv.channels stPriv.nextId "private-x"],
                 nextId := stPriv.nextId + 1,
                 sentWire := stPriv.sentWire ++
                   [{ event := "pusher:subscribe", channel := "private-x",
                      auth := some "S|private-x" }] } ∧
    runStep env0 cfgErr stPriv (.subscribeReq "private-x") = .panicked :=
  ⟨(C8_private_callback env0 cfg0 stPriv { socketID := "S" } "private-x"
      rfl rfl rfl).1 "S|private-x" rfl,
   (C8_private_callback env0 cfgErr stPriv { socketID := "S" } "private-x"
      rfl rfl rfl).2 "denied" rfl⟩

/-- C1 (amended): whenever one control-loop step emits wire traffic, a
transport handle existed at the start of the step; an emitted subscribe
frame additionally requires the `Connected` flag to have been set (either
already at the start of the step, or — during connection-established
processing — by the step itself, which sets the flag before sending).
Neither condition implies the connection is fully established: an
unsubscribe frame can be sent while awaiting connection-established, and a
subscribe frame can be sent on a freshly dialed transport when the flag is
stale after a close (C10). -/
theorem C1_wire_guard (env : Env) (cfg : ClientConfig) (st : ClientState)
    (i : Input) (st' : ClientState)
    (h : runStep env cfg st i = .running st' ∨
         runStep env cfg st i = .exited st') :
    ∃ d : List OutMsg, st'.sentWire = st.sentWire ++ d ∧
      (d ≠ [] → st.connection.isSome = true) ∧
      (∀ m ∈ d, m.event = "pusher:subscribe" →
        st.connected = true ∨ isEstablishedMsg i = true) ∧
      (∀ m ∈ d, m.event = "pusher:unsubscribe" →
        st.connection.isSome = true) := by
  cases i with
  | timerFired b =>
    have hs : st'.sentWire = st.sentWire := by
      rcases h with h | h <;> simp only [runStep] at h <;> split at h
      · simp only [RunResult.running.injEq] at h
        subst h
        rfl
      · split at h
        · simp only [RunResult.running.injEq] at h
          subst h
          rfl
        · simp only [RunResult.running.injEq] at h
          subst h
          rfl
      · simp at h
      · split at h <;> simp at h
    refine ⟨[], by rw [List.append_nil]; exact hs, by simp, by simp, by simp⟩
  | subscribeReq name =>
    cases hc : st.connected with
    | false =>
      have hs : st'.sentWire = st.sentWire := by
        rcases h with h | h
        · simp [runStep, hc] at h
          subst h
          rfl
        · simp [runStep, hc] at h
      refine ⟨[], by rw [List.append_nil]; exact hs, by simp, by simp, by simp⟩
    | true =>
      cases hw : subscribeWire env cfg st.connection st.userData
          (subscribeScan st.channels st.nextId name) with
      | error e =>
        rcases h with h | h <;> simp [runStep, hc, hw] at h
      | ok m =>
        have hs : st'.sentWire = st.sentWire ++ [m] := by
          rcases h with h | h
          · simp [runStep, hc, hw] at h
            subst h
            rfl
          · simp [runStep, hc, hw] at h
        refine ⟨[m], hs, fun _ => subscribeWire_ok_isSome hw, ?_, ?_⟩
        · intro m2 _ _
          exact Or.inl rfl
        · intro m2 _ _
          exact subscribeWire_ok_isSome hw
  | unsubscribeReq name =>
    have hs : st'.sentWire =
        st.sentWire ++ (unsubFold st.connection.isSome name st.channels).2 := by
      rcases h with h | h
      · simp only [runStep, RunResult.running.injEq] at h
        subst h
        rfl
      · simp [runStep] at h
    refine ⟨(unsubFold st.connection.isSome name st.channels).2, hs, ?_, ?_, ?_⟩
    · intro hne
      cases hcn : st.connection.isSome with
      | true => rfl
      | false =>
        rw [hcn] at hne
        exact absurd (by rw [unsubFold_nilConn]) hne
    · intro m hm hev
      have h1 := unsubFold_sent _ name st.channels m hm
      rw [h1] at hev
      have h2 : "pusher:unsubscribe" = "pusher:subscribe" := hev
      exact absurd h2 (by decide)
    · intro m hm _
      cases hcn : st.connection.isSome with
      | true => rfl
      | false =>
        rw [hcn] at hm
        rw [unsubFold_nilConn] at hm
        simp at hm
  | rawMessage dec inner =>
    cases dec with
    | error u =>
      rcases h with h | h
      · have h2 : RunResult.running { st with
            delivered := st.delivered ++ triggerLog st "" "" (.raw "") } =
            .running st' := h
        simp only [RunResult.running.injEq] at h2
        subst h2
        refine ⟨[], by simp, by simp, by simp, by simp⟩
      · have h2 : RunResult.running { st with
            delivered := st.delivered ++ triggerLog st "" "" (.raw "") } =
            .exited st' := h
        exact RunResult.noConfusion h2
    | ok e =>
      rcases h with h | h
      · simp only [runStep] at h
        split at h
        next hcond =>
          split at h
          next hcn => simp at h
          next c hcn =>
            split at h
            next e2 hps => simp at h
            next ms hps =>
              obtain ⟨hspec1, hspec2⟩ := pendingSubscribes_spec st.channels ms hps
              simp only [RunResult.running.injEq] at h
              subst h
              refine ⟨ms, rfl, ?_, ?_, ?_⟩
              · intro _
                simp [hcn]
              · intro m hm _
                refine Or.inr ?_
                simp [isEstablishedMsg, hcond]
              · intro m hm hev
                have h1 := hspec2 m hm
                rw [h1] at hev
                exact absurd hev (by decide)
        next hcond =>
          split at h
          next h2 =>
            simp only [RunResult.running.injEq] at h
            subst h
            refine ⟨[], by simp, by simp, by simp, by simp⟩
          next h2 =>
            split at h
            next h3 =>
              simp only [RunResult.running.injEq] at h
              subst h
              refine ⟨[], by simp, by simp, by simp, by simp⟩
            next h3 =>
              split at h
              next h4 =>
                simp only [RunResult.running.injEq] at h
                subst h
                refine ⟨[], by simp, by simp, by simp, by simp⟩
              next h4 =>
                simp only [RunResult.running.injEq] at h
                subst h
                refine ⟨[], by simp, by simp, by simp, by simp⟩
      · simp only [runStep] at h
        split at h
        next hcond =>
          split at h
          next hcn => simp at h
          next c hcn =>
            split at h
            next e2 hps => simp at h
            next ms hps => simp at h
        next hcond =>
          split at h
          next h2 => simp at h
          next h2 =>
            split at h
            next h3 => simp at h
            next h3 =>
              split at h
              next h4 => simp at h
              next h4 => simp at h
  | disconnectReq =>
    have hs : st'.sentWire = st.sentWire := by
      rcases h with h | h <;> simp only [runStep, disconnectTeardown] at h <;>
          split at h
      · simp at h
      · simp at h
      · simp at h
      · simp only [RunResult.exited.injEq] at h
        subst h
        rfl
    refine ⟨[], by rw [List.append_nil]; exact hs, by simp, by simp, by simp⟩
  | closed =>
    have hs : st'.sentWire = st.sentWire := by
      rcases h with h | h
      · simp only [runStep, RunResult.running.injEq] at h
        subst h
        rfl
      · simp [runStep] at h
    refine ⟨[], by rw [List.append_nil]; exact hs, by simp, by simp, by simp⟩

/-- C1 (counterexample): "a subscribe or unsubscribe wire message is sent
only while the connection state is fully connected" is false.  On a fresh
client, after a successful dial but before any connection-established
event (none of the three inputs is even an inbound frame, and the final
`Connected` flag still reads false), an unsubscribe request for a
registered channel puts a wire unsubscribe frame on the transport, because
the unsubscribe case only checks that a connection handle exists. -/
theorem C1_counterexample :
    runTrace env0 cfg0
        [.timerFired true, .subscribeReq "a", .unsubscribeReq "a"] =
      .running { connection := some { socketID := "" }, connected := false,
                 channels := [{ cid := 0, name := "a", subscribed := false }],
                 userData := { userId := "", userInfo := "" }, bindings := [],
                 globalCount := 0, nextId := 1, timer := none,
                 sentWire := [{ event := "pusher:unsubscribe", channel := "a" }],
                 delivered := [] } ∧
    isEstablishedMsg (.timerFired true) = false ∧
    isEstablishedMsg (.subscribeReq "a") = false ∧
    isEstablishedMsg (.unsubscribeReq "a") = false :=
  ⟨rfl, rfl, rfl, rfl⟩

/-- C1 witness: the per-step guard evaluated on the concrete step of the
counterexample run that emits the unsubscribe frame: the client `stAwait`
is awaiting connection-established (handle present, flag false). -/
theorem C1_witness :
    ∃ d : List OutMsg, stAwaitAfter.sentWire = stAwait.sentWire ++ d ∧
      (d ≠ [] → stAwait.connection.isSome = true) ∧
      (∀ m ∈ d, m.event = "pusher:subscribe" →
        stAwait.connected = true ∨
          isEstablishedMsg (.unsubscribeReq "a") = true) ∧
      (∀ m ∈ d, m.event = "pusher:unsubscribe" →
        stAwait.connection.isSome = true) :=
  C1_wire_guard env0 cfg0 stAwait (.unsubscribeReq "a") stAwaitAfter
    (Or.inl rfl)

end PusherClient
